import Mathlib

/-!
Verification of `generate_ehr_data.py` (ACLIS synthetic EHR generator).

This file gives a shallow embedding of the generator into Lean 4 and proves
the frozen claims about it.  Modelling conventions:

* Calendar dates are modelled as integers counting days since 1970-01-01
  (the value of Python's `date.toordinal` up to a constant shift).
  `datetime.now().date()` becomes an explicit parameter `today : Int`;
  `timedelta(days = k)` arithmetic becomes integer arithmetic.
* `date.strftime("%Y-%m-%d")` / `date.isoformat()` are embedded by
  `formatDate`, which converts a day number to a proleptic-Gregorian
  `YYYY-MM-DD` string (a faithful model for years 1000..9999, which covers
  every run date the hypotheses below allow).
* Randomness is made explicit: every call of `random.randint` /
  `random.choice` / `random.uniform` and every `uuid.uuid4().hex` draw is a
  field of a `JourneyRands` / `SimpleRands` record passed to the generator.
  `random.choice(pool)` is embedded as indexing `pool` by a draw modulo the
  pool size; `uuid4().hex` is a list of 32 nibble values (< 16) rendered in
  lowercase hex.  Contracts of the draws (e.g. `randint(2000, 8000)` lies in
  `[2000, 8000]`) appear as hypotheses of the theorems that need them.
* Numeric lab values (Python floats with one decimal) are modelled as `Rat`.
* Python dict lookups that the scenario performs on literal keys use
  `Option.get` with a decidable-by-`rfl` presence proof (a missing key would
  raise `KeyError`, i.e. be fatal); `create_simple_patient` looks up a key
  supplied by the caller, so it returns `Option Patient`, `none` modelling
  the fatal `KeyError` path.
-/

/-! ### Code reference tables (module-level constant dicts of the source) -/

structure Coding where
  code : String
  description : String
deriving DecidableEq, Repr, Inhabited

structure Medication where
  rxcui : String
  name : String
deriving DecidableEq, Repr, Inhabited

structure LabTest where
  loinc : String
  unit : Option String
  range : Option (Rat × Rat)
deriving DecidableEq, Repr, Inhabited

def FIRST_NAMES : List String :=
  ["John", "Jane", "Robert", "Emily", "Michael", "Sarah", "William", "Jessica", "David", "Linda"]

def LAST_NAMES : List String :=
  ["Smith", "Johnson", "Williams", "Brown", "Jones", "Garcia", "Miller", "Davis", "Rodriguez", "Martinez"]

def BLOOD_TYPES : List String := ["A+", "A-", "B+", "B-", "AB+", "AB-", "O+", "O-"]

def DIAGNOSES : List (String × Coding) :=
  [ ("NSCLC", ⟨"C34.11", "Malignant neoplasm of right upper lobe, bronchus or lung"⟩)
  , ("Hypertension", ⟨"I10", "Essential (primary) hypertension"⟩)
  , ("Hyperlipidemia", ⟨"E78.5", "Hyperlipidemia, unspecified"⟩)
  , ("Type 2 Diabetes", ⟨"E11.9", "Type 2 diabetes mellitus without complications"⟩)
  , ("CAD", ⟨"I25.10", "Atherosclerotic heart disease of native coronary artery without angina pectoris"⟩)
  , ("Pneumonia", ⟨"J18.9", "Pneumonia, unspecified organism"⟩) ]

def PROCEDURES : List (String × Coding) :=
  [ ("Office Visit", ⟨"99214", "Office or other outpatient visit, established patient, 30-39 minutes"⟩)
  , ("Chest X-ray", ⟨"71046", "Radiologic examination, chest; 2 views"⟩)
  , ("Chest CT", ⟨"71260", "Computed tomography, thorax; with contrast material(s)"⟩)
  , ("Bronchoscopy", ⟨"31622", "Bronchoscopy, rigid or flexible, with or without fluoroscopic guidance"⟩)
  , ("Biopsy", ⟨"31625", "Bronchoscopy with bronchial or endobronchial biopsy"⟩) ]

def MEDICATIONS : List (String × Medication) :=
  [ ("Lisinopril", ⟨"203166", "Lisinopril 10 MG Oral Tablet"⟩)
  , ("Atorvastatin", ⟨"200331", "Atorvastatin 20 MG Oral Tablet"⟩)
  , ("Osimertinib", ⟨"1732461", "Osimertinib 80 MG Oral Tablet"⟩)
  , ("Metformin", ⟨"860975", "Metformin hydrochloride 500 MG Extended Release Oral Tablet"⟩) ]

def LAB_TESTS : List (String × LabTest) :=
  [ ("Potassium", ⟨"2823-3", some "mEq/L", some (3.5, 5.2)⟩)
  , ("HbA1c", ⟨"4548-4", some "%", some (4.0, 5.6)⟩)
  , ("Creatinine", ⟨"2160-0", some "mg/dL", some (0.6, 1.3)⟩)
  , ("WBC", ⟨"6690-2", some "x10^3/uL", some (4.5, 11.0)⟩)
  , ("Hgb", ⟨"718-7", some "g/dL", some (13.5, 17.5)⟩)
  , ("EGFR Mutation", ⟨"42800-2", none, none⟩) ]

/-! ### Entity model (the Python classes) -/

structure LabResult where
  test_name : String
  value : Rat
  unit : String
  ref_range : String
  status : String
deriving DecidableEq, Repr, Inhabited

structure Finding where
  finding : String
  confidence : Int
  coordinates : List (String × String)
deriving DecidableEq, Repr, Inhabited

/-- Shape of the `ai_analysis` dict attached to the imaging studies. -/
structure ImgAI where
  provider : String
  logo : String
  findings : List Finding
  contradiction_alert : Option String
deriving DecidableEq, Repr, Inhabited

/-- Shape of the `ai_analysis` dict attached to the pathology report. -/
structure PathAI where
  provider : String
  logo : String
  findings : List Finding
  prognostic_insight : String
deriving DecidableEq, Repr, Inhabited

structure ImagingStudy where
  study_id : String
  type : String
  date : Int
  report : String
  image_url : String
  ai_analysis : ImgAI
deriving DecidableEq, Repr, Inhabited

structure PathologyReport where
  report_id : String
  date : Int
  specimen : String
  report : String
  ai_analysis : Option PathAI
deriving DecidableEq, Repr, Inhabited

structure Mutation where
  gene : String
  variant : String
  significance : String
  type : String
deriving DecidableEq, Repr, Inhabited

structure Prognosis where
  model : String
  risk_score : Int
  stage_prediction : String
  confidence : Int
  key_factors : List String
deriving DecidableEq, Repr, Inhabited

structure SuggestedTest where
  name : String
  provider : String
  logo : String
  description : String
deriving DecidableEq, Repr, Inhabited

structure GenomicProfile where
  prognosis : Prognosis
  mutations : List Mutation
  suggested_tests : List SuggestedTest
deriving DecidableEq, Repr, Inhabited

/-- One vitals reading dict; the `timestamp` field holds the already
serialized string the source puts there. -/
structure Vital where
  timestamp : String
  hr : Int
  bp : String
  spo2 : Int
deriving DecidableEq, Repr, Inhabited

/-- One wearable daily sample.  The source formats the date at construction
time; here the day number is stored and the serializer formats it, which
yields the same document. -/
structure Wearable where
  date : Int
  steps : Int
  avg_hr : Int
  sleep_hours : Rat
deriving DecidableEq, Repr, Inhabited

structure Encounter where
  encounter_id : String
  patient_id : String
  date : Int
  type : String
  chief_complaint : String
  diagnoses : List Coding
  procedures : List Coding
  medications : List Medication
  vitals : List Vital
  labs : List LabResult
  imaging_studies : List ImagingStudy
  pathology_reports : List PathologyReport
deriving DecidableEq, Repr, Inhabited

structure Patient where
  patient_id : String
  name : String
  dob : Int
  sex : String
  age : Int
  blood_type : String
  encounters : List Encounter
  genomic_profile : Option GenomicProfile
  wearable_data : List Wearable
deriving DecidableEq, Repr, Inhabited

/-- `Patient.__init__`: `age` is computed from `dob` and today's date
(Python `//` is floor division, which `Int` division also is); the blood
type is one `random.choice` from `BLOOD_TYPES`, embedded as indexing by the
draw modulo the pool size. -/
def Patient.make (today : Int) (patient_id name : String) (dob : Int) (sex : String)
    (bloodIdx : Nat) : Patient :=
  { patient_id := patient_id
  , name := name
  , dob := dob
  , sex := sex
  , age := (today - dob) / 365
  , blood_type := BLOOD_TYPES.getD (bloodIdx % BLOOD_TYPES.length) "A+"
  , encounters := []
  , genomic_profile := none
  , wearable_data := [] }

/-! ### String and date helpers -/

/-- Lowercase hex digit for a nibble value, as produced by `uuid4().hex`. -/
def hexChar (n : Nat) : Char :=
  if n < 10 then Char.ofNat (48 + n) else Char.ofNat (87 + n)

def hexStr (ds : List Nat) : String := String.mk (ds.map hexChar)

/-- Python `s[-4:]` for strings of length at least 4. -/
def last4 (s : String) : String := String.mk (s.data.drop (s.data.length - 4))

/-- Whether `pat` occurs at the head of `s`. -/
def leadMatch : List Char → List Char → Bool
  | [], _ => true
  | _ :: _, [] => false
  | a :: as, b :: bs => a == b && leadMatch as bs

/-- Whether `pat` occurs somewhere in `s`. -/
def occursIn (pat : List Char) : List Char → Bool
  | [] => leadMatch pat []
  | c :: cs => leadMatch pat (c :: cs) || occursIn pat cs

/-- Substring test on `String`. -/
def strContains (s pat : String) : Bool := occursIn pat.data s.data

/-- Convert a day number (days since 1970-01-01) to a proleptic Gregorian
civil date `(year, month, day)`.  This is the standard era-based conversion;
integer division is floor division (Euclidean division by the positive
constants used here). -/
def civilFromDays (z0 : Int) : Int × Int × Int :=
  let z := z0 + 719468
  let era := z / 146097
  let doe := z - era * 146097
  let yoe := (doe - doe / 1460 + doe / 36524 - doe / 146096) / 365
  let y := yoe + era * 400
  let doy := doe - (365 * yoe + yoe / 4 - yoe / 100)
  let mp := (5 * doy + 2) / 153
  let d := doy - (153 * mp + 2) / 5 + 1
  let m := if mp < 10 then mp + 3 else mp - 9
  (if m ≤ 2 then y + 1 else y, m, d)

/-- Decimal digit character of `n mod 10`. -/
def digitChar (n : Int) : Char := Char.ofNat (48 + (n % 10).toNat)

/-- `date.strftime("%Y-%m-%d")` (also `date.isoformat()`): zero-padded
`YYYY-MM-DD`.  Faithful to CPython for years 1000..9999; every date this
development evaluates it at lies in that range under the stated hypotheses. -/
def formatDate (z : Int) : String :=
  let y := (civilFromDays z).1
  let m := (civilFromDays z).2.1
  let d := (civilFromDays z).2.2
  String.mk [digitChar (y / 1000), digitChar (y / 100), digitChar (y / 10), digitChar y,
             '-', digitChar (m / 10), digitChar m,
             '-', digitChar (d / 10), digitChar d]

/-- Shape check for `YYYY-MM-DD`: ten characters, digits except dashes at
positions 4 and 7. -/
def isYMD (s : String) : Bool :=
  match s.data with
  | [y1, y2, y3, y4, s1, m1, m2, s2, d1, d2] =>
      y1.isDigit && y2.isDigit && y3.isDigit && y4.isDigit && (s1 == '-')
        && m1.isDigit && m2.isDigit && (s2 == '-') && d1.isDigit && d2.isDigit
  | _ => false

/-- Value of a list of decimal digit characters. -/
def digitsVal (cs : List Char) : Nat := cs.foldl (fun a c => a * 10 + (c.toNat - 48)) 0

/-- Split a character list at the first occurrence of `sep`; `none` when
`sep` does not occur. -/
def splitAtChar (sep : Char) : List Char → Option (List Char × List Char)
  | [] => none
  | c :: cs =>
      if c == sep then some ([], cs)
      else (splitAtChar sep cs).map fun ab => (c :: ab.1, ab.2)

/-- Read a plain decimal literal such as `3.5` or `11` as a rational. -/
def parseDec (cs : List Char) : Option Rat :=
  match splitAtChar '.' cs with
  | none => if !cs.isEmpty && cs.all Char.isDigit then some (digitsVal cs) else none
  | some (a, b) =>
      if !a.isEmpty && !b.isEmpty && a.all Char.isDigit && b.all Char.isDigit then
        some ((digitsVal a : Rat) + (digitsVal b : Rat) / ((10 : Rat) ^ b.length))
      else none

/-- Read a numeric reference-range string such as `"3.5-5.2"` as its two
bounds. -/
def parseRange (s : String) : Option (Rat × Rat) :=
  match splitAtChar '-' s.data with
  | none => none
  | some (a, b) =>
      match parseDec a, parseDec b with
      | some lo, some hi => some (lo, hi)
      | _, _ => none

/-! ### Scenario synthesis engine: `create_nsclc_patient_journey` -/

/-- Explicit random draws consumed by `create_nsclc_patient_journey`, in the
order the source draws them.  The `uuid` fields are the nibble values of
`uuid.uuid4().hex`; `stepsDraw i` / `hrDraw i` / `sleepDraw i` are the
`random.randint(2000, 8000)`, `random.randint(70, 90)` and
`round(random.uniform(5.5, 7.5), 1)` draws of wearable day `i`. -/
structure JourneyRands where
  uuidPatient : List Nat
  bloodIdx : Nat
  uuidImg1 : List Nat
  uuidImg2 : List Nat
  uuidPath : List Nat
  stepsDraw : Nat → Int
  hrDraw : Nat → Int
  sleepDraw : Nat → Rat

/-- The `ai_analysis` dict of Encounter 1's chest X-ray. -/
def img1AI : ImgAI :=
  { provider := "Qure.ai qXR"
  , logo := "https://via.placeholder.com/80x20/10B981/FFFFFF?text=Qure.ai"
  , findings := [{ finding := "Pulmonary Nodule (RUL)", confidence := 87,
                   coordinates := [("top", "40%"), ("left", "60%")] }]
  , contradiction_alert := none }

/-- The `ai_analysis` dict of Encounter 2's chest CT. -/
def img2AI : ImgAI :=
  { provider := "Aidoc Radiology"
  , logo := "https://via.placeholder.com/80x20/3B82F6/FFFFFF?text=Aidoc"
  , findings := [{ finding := "Spiculated Nodule (RUL)", confidence := 94,
                   coordinates := [("top", "35%"), ("left", "55%")] }]
  , contradiction_alert := some "Global research agent notes a new study suggesting nodules with these characteristics have a 15% higher risk of metastasis than previously thought. [View Study]" }

/-- The `ai_analysis` dict of Encounter 3's pathology report (its finding
dict carries no `coordinates` key, modelled as the empty list). -/
def pathAI : PathAI :=
  { provider := "Paige.AI"
  , logo := "https://via.placeholder.com/80x20/8B5CF6/FFFFFF?text=Paige"
  , findings := [{ finding := "Adenocarcinoma cells detected", confidence := 99, coordinates := [] }]
  , prognostic_insight := "Morphology suggests high likelihood of EGFR mutation." }

/-- Encounter 1 (primary care visit), with its list-append sequence written
as the resulting lists.  The vitals `timestamp` is
`(enc1_date - timedelta(hours=1)).isoformat()`: Python `date` arithmetic
ignores the sub-day part of a `timedelta`, so the value is the encounter
date itself rendered `YYYY-MM-DD` (no time component, no `Z`). -/
def journeyEnc1 (today : Int) (pid : String) (uuidImg1 : List Nat) : Encounter :=
  let enc1_date := today - 30
  { encounter_id := "E-" ++ last4 pid ++ "-01"
  , patient_id := pid
  , date := enc1_date
  , type := "Outpatient"
  , chief_complaint := "Persistent cough and shortness of breath for 3 weeks."
  , diagnoses := [(List.lookup "Hypertension" DIAGNOSES).get (by rfl)]
  , procedures := [(List.lookup "Office Visit" PROCEDURES).get (by rfl)]
  , medications := [(List.lookup "Lisinopril" MEDICATIONS).get (by rfl)]
  , vitals := [{ timestamp := formatDate enc1_date, hr := 85, bp := "138/88", spo2 := 97 }]
  , labs := []
  , imaging_studies :=
      [{ study_id := "IMG-" ++ hexStr (uuidImg1.take 6)
       , type := "Chest X-ray"
       , date := enc1_date
       , report := "A 1.5 cm nodule is noted in the right upper lobe. Recommend follow-up with CT."
       , image_url := "https://via.placeholder.com/400x300/111827/6B7280?text=Chest+X-ray"
       , ai_analysis := img1AI }]
  , pathology_reports := [] }

/-- Encounter 2 (pulmonology consult and CT scan). -/
def journeyEnc2 (today : Int) (pid : String) (uuidImg2 : List Nat) : Encounter :=
  let enc2_date := today - 15
  { encounter_id := "E-" ++ last4 pid ++ "-02"
  , patient_id := pid
  , date := enc2_date
  , type := "Outpatient"
  , chief_complaint := "Follow-up on abnormal chest X-ray."
  , diagnoses := []
  , procedures := [(List.lookup "Chest CT" PROCEDURES).get (by rfl)]
  , medications := []
  , vitals := []
  , labs := []
  , imaging_studies :=
      [{ study_id := "IMG-" ++ hexStr (uuidImg2.take 6)
       , type := "Chest CT"
       , date := enc2_date
       , report := "Confirms 1.5 cm spiculated nodule in the RUL, highly suspicious for malignancy. Recommend bronchoscopy with biopsy."
       , image_url := "https://via.placeholder.com/400x300/111827/6B7280?text=Chest+CT"
       , ai_analysis := img2AI }]
  , pathology_reports := [] }

/-- Encounter 3 (inpatient biopsy): procedures, definitive diagnosis, a
pathology report dated two days after the encounter, and three lab results. -/
def journeyEnc3 (today : Int) (pid : String) (uuidPath : List Nat) : Encounter :=
  let enc3_date := today - 7
  { encounter_id := "E-" ++ last4 pid ++ "-03"
  , patient_id := pid
  , date := enc3_date
  , type := "Inpatient"
  , chief_complaint := "Scheduled bronchoscopy and biopsy."
  , diagnoses := [(List.lookup "NSCLC" DIAGNOSES).get (by rfl)]
  , procedures := [(List.lookup "Bronchoscopy" PROCEDURES).get (by rfl),
                   (List.lookup "Biopsy" PROCEDURES).get (by rfl)]
  , medications := []
  , vitals := []
  , labs := [ ⟨"Potassium", 4.1, "mEq/L", "3.5-5.2", "Normal"⟩
            , ⟨"HbA1c", 6.8, "%", "4.0-5.6", "Critical"⟩
            , ⟨"WBC", 9.5, "x10^3/uL", "4.5-11.0", "Normal"⟩ ]
  , imaging_studies := []
  , pathology_reports :=
      [{ report_id := "PATH-" ++ hexStr (uuidPath.take 6)
       , date := enc3_date + 2
       , specimen := "Right upper lobe bronchial biopsy"
       , report := "Findings consistent with non-small cell lung carcinoma, adenocarcinoma subtype."
       , ai_analysis := some pathAI }] }

/-- The genomic profile attached after the biopsy (a constant of the
scenario template). -/
def journeyGenomicProfile : GenomicProfile :=
  { prognosis :=
      { model := "TabPFN Prognostic Model"
      , risk_score := 34
      , stage_prediction := "Stage IIIB"
      , confidence := 89
      , key_factors := ["EGFR L858R Mutation", "Tumor Size > 1cm", "Age > 40"] }
  , mutations :=
      [ ⟨"EGFR", "L858R", "Pathogenic", "Somatic"⟩
      , ⟨"TP53", "R273H", "Likely Pathogenic", "Somatic"⟩ ]
  , suggested_tests :=
      [ ⟨"FoundationOne CDx", "Foundation Medicine",
         "https://via.placeholder.com/80x20/8B5CF6/FFFFFF?text=Foundation",
         "324-gene panel for solid tumors, FDA-approved companion diagnostic."⟩
      , ⟨"Guardant360 CDx", "Guardant Health",
         "https://via.placeholder.com/80x20/EF4444/FFFFFF?text=Guardant",
         "Liquid biopsy for comprehensive genomic profiling of 74 genes."⟩ ] }

/-- The wearable loop: `for i in range(30)` appends the sample for day
`today - (30 - i)`, with steps `randint(2000, 8000) - i*50`. -/
def journeyWearables (today : Int) (r : JourneyRands) : List Wearable :=
  (List.range 30).map fun (i : Nat) =>
    { date := today - (30 - (i : Int))
    , steps := r.stepsDraw i - 50 * (i : Int)
    , avg_hr := r.hrDraw i
    , sleep_hours := r.sleepDraw i }

/-- `create_nsclc_patient_journey`, with `datetime.now().date()` the
parameter `today` and the random draws the parameter `r`. -/
def create_nsclc_patient_journey (today : Int) (r : JourneyRands) : Patient :=
  let patient := Patient.make today ("ACLIS-" ++ hexStr (r.uuidPatient.take 8))
      "John Doe" (today - 45 * 365) "M" r.bloodIdx
  let enc1 := journeyEnc1 today patient.patient_id r.uuidImg1
  let enc2 := journeyEnc2 today patient.patient_id r.uuidImg2
  let enc3 := journeyEnc3 today patient.patient_id r.uuidPath
  { patient with
    encounters := [enc1, enc2, enc3]
    genomic_profile := some journeyGenomicProfile
    wearable_data := journeyWearables today r }

/-! ### Independent record generator: `create_simple_patient` -/

/-- Explicit random draws consumed by `create_simple_patient`: the
`uuid4().hex` nibbles of the fresh patient id, the blood-type and sex
`random.choice` indices, and the `random.randint(5, 50)` day offset of the
encounter date. -/
structure SimpleRands where
  uuid : List Nat
  bloodIdx : Nat
  sexIdx : Nat
  dateOffset : Int

/-- `create_simple_patient`.  The `patient_id` argument is accepted but the
source immediately shadows it with a fresh `ACLIS-` id; a `diagnosis_key`
absent from `DIAGNOSES` raises `KeyError`, modelled by `none`. -/
def create_simple_patient (patient_id : Nat) (name diagnosis_key : String) (age : Int)
    (today : Int) (r : SimpleRands) : Option Patient :=
  match List.lookup diagnosis_key DIAGNOSES with
  | none => none
  | some dx =>
      let patient := Patient.make today ("ACLIS-" ++ hexStr (r.uuid.take 8))
          name (today - age * 365) (["M", "F"].getD (r.sexIdx % 2) "M") r.bloodIdx
      let enc_date := today - r.dateOffset
      let encounter : Encounter :=
        { encounter_id := "E-" ++ last4 patient.patient_id ++ "-01"
        , patient_id := patient.patient_id
        , date := enc_date
        , type := "Inpatient"
        , chief_complaint := dx.description
        , diagnoses := [dx]
        , procedures := []
        , medications := []
        , vitals := []
        , labs := []
        , imaging_studies := []
        , pathology_reports := [] }
      some { patient with encounters := [encounter] }

/-! ### Serialization views (the date/timestamp strings `to_dict` emits) -/

/-- Every string the nested `to_dict` serialization renders with
`strftime("%Y-%m-%d")`: the patient's `dob`, each encounter's `date`, each
imaging study's and pathology report's `date`, and each wearable sample's
`date`. -/
def dateFields (p : Patient) : List String :=
  (formatDate p.dob ::
    (p.encounters.flatMap fun e =>
      formatDate e.date ::
      ((e.imaging_studies.map fun s => formatDate s.date)
        ++ (e.pathology_reports.map fun rep => formatDate rep.date))))
  ++ (p.wearable_data.map fun w => formatDate w.date)

/-- Every `timestamp` field of the serialized document (they sit in the
vitals dicts and are serialized verbatim). -/
def timestampFields (p : Patient) : List String :=
  p.encounters.flatMap fun e => e.vitals.map Vital.timestamp

/-- All lab results of a patient, in serialization order. -/
def allLabs (p : Patient) : List LabResult :=
  p.encounters.flatMap fun e => e.labs

/-- All AI confidence scores of a patient: imaging findings, pathology
findings, and the genomic prognosis confidence. -/
def allConfidences (p : Patient) : List Int :=
  (p.encounters.flatMap fun e =>
    (e.imaging_studies.flatMap fun s => s.ai_analysis.findings.map Finding.confidence)
    ++ (e.pathology_reports.flatMap fun rep =>
          match rep.ai_analysis with
          | some ai => ai.findings.map Finding.confidence
          | none => []))
  ++ (match p.genomic_profile with
      | some gp => [gp.prognosis.confidence]
      | none => [])

/-! ### Concrete sample draws (used by witnesses and counterexamples) -/

/-- A concrete random-draw record for the journey generator. -/
def sampleJourneyRands : JourneyRands :=
  { uuidPatient := List.replicate 32 0
  , bloodIdx := 0
  , uuidImg1 := List.replicate 32 1
  , uuidImg2 := List.replicate 32 2
  , uuidPath := List.replicate 32 3
  , stepsDraw := fun _ => 5000
  , hrDraw := fun _ => 80
  , sleepDraw := fun _ => 6.5 }

/-- A concrete random-draw record for the simple generator. -/
def sampleSimpleRands : SimpleRands :=
  { uuid := List.replicate 32 4, bloodIdx := 1, sexIdx := 1, dateOffset := 20 }

/-! ### Helper lemmas -/

/-- Every character `digitChar` produces is a decimal digit. -/
theorem digitChar_isDigit (n : Int) : (digitChar n).isDigit = true := by
  have h : ∀ k : Nat, k < 10 → (Char.ofNat (48 + k)).isDigit = true := by
    intro k hk
    interval_cases k <;> decide
  unfold digitChar
  exact h _ (by omega)

/-- A digit character is never the letter `Z`. -/
theorem digitChar_ne_Z (n : Int) : digitChar n ≠ 'Z' := by
  intro h
  have := digitChar_isDigit n
  rw [h] at this
  exact absurd this (by decide)

/-- Formatted dates always have the `YYYY-MM-DD` shape. -/
theorem isYMD_formatDate (z : Int) : isYMD (formatDate z) = true := by
  simp [formatDate, isYMD, digitChar_isDigit]

/-- The last character of a formatted date is the ones digit of its day. -/
theorem formatDate_getLast? (z : Int) :
    (formatDate z).data.getLast? = some (digitChar (civilFromDays z).2.2) := rfl

/-- A successful association-list lookup returns one of the listed values. -/
theorem lookup_mem {β : Type} (k : String) (t : List (String × β)) (b : β)
    (h : List.lookup k t = some b) : b ∈ t.map Prod.snd := by
  induction t with
  | nil => simp [List.lookup] at h
  | cons hd tl ih =>
      rw [List.lookup] at h
      by_cases hk : k == hd.1
      · simp [hk] at h
        simp [h]
      · simp [hk] at h
        simp [ih h]

/-- A lowercase hex character test (as `uuid4().hex` emits). -/
def isHexChar (c : Char) : Bool := c.isDigit || ('a' ≤ c && c ≤ 'f')

/-- Nibble values render to hex characters. -/
theorem hexChar_isHexChar (n : Nat) (h : n < 16) : isHexChar (hexChar n) = true := by
  interval_cases n <;> decide

/-! ### Claims -/

/-- C1: the three encounters of the NSCLC journey carry the dates
now − 30, now − 15 and now − 7, which are strictly increasing, so the
encounters list is in chronological order. -/
theorem c1_encounter_dates_strictly_increasing (today : Int) (r : JourneyRands) :
    ((create_nsclc_patient_journey today r).encounters.map Encounter.date)
        = [today - 30, today - 15, today - 7]
    ∧ List.Chain' (· < ·)
        ((create_nsclc_patient_journey today r).encounters.map Encounter.date) := by
  constructor
  · simp [create_nsclc_patient_journey, journeyEnc1, journeyEnc2, journeyEnc3]
  · simp [create_nsclc_patient_journey, journeyEnc1, journeyEnc2, journeyEnc3,
      List.chain'_cons]

/-- C2 (amended): the journey's wearable data has exactly 30 samples on
consecutive calendar days with no duplicate dates, but the window is
now − 30 .. now − 1: the last sample's date is the day BEFORE the synthesis
date, not the synthesis date itself. -/
theorem c2_wearable_window_amended (today : Int) (r : JourneyRands) :
    ((create_nsclc_patient_journey today r).wearable_data.map Wearable.date).length = 30
    ∧ List.Chain' (fun a b => b = a + 1)
        ((create_nsclc_patient_journey today r).wearable_data.map Wearable.date)
    ∧ ((create_nsclc_patient_journey today r).wearable_data.map Wearable.date).Nodup
    ∧ ((create_nsclc_patient_journey today r).wearable_data.map Wearable.date).getLast?
        = some (today - 1) := by
  have hmap : (create_nsclc_patient_journey today r).wearable_data.map Wearable.date
      = (List.range 30).map (fun (i : Nat) => today - (30 - (i : Int))) := by
    simp [create_nsclc_patient_journey, journeyWearables, List.map_map, Function.comp]
  refine ⟨?_, ?_, ?_, ?_⟩
  · rw [hmap]; simp
  · rw [hmap, List.chain'_map]
    rw [show (30 : Nat) = Nat.succ 29 from rfl, List.chain'_range_succ]
    intro m _
    omega
  · rw [hmap]
    refine List.Nodup.map ?_ (List.nodup_range 30)
    intro a b hab
    dsimp only at hab
    omega
  · rw [hmap, List.getLast?_map]
    rw [show (List.range 30).getLast? = some 29 by decide]
    simp

/-- C2 (counterexample): at a concrete run (day number 20000 with the sample
draws) the last wearable sample's date is 19999, the day before the
synthesis date, so "the last sample's date equals the synthesis date" fails
as stated. -/
theorem c2_counterexample :
    ¬ (((create_nsclc_patient_journey 20000 sampleJourneyRands).wearable_data.map
          Wearable.date).getLast? = some 20000) := by
  decide

/-- C3: the gene named in Encounter 3's pathology-report prognostic insight
is the gene of a mutation listed in the patient's genomic profile (the
insight text contains that mutation's gene name, `EGFR`). -/
theorem c3_prognostic_gene_in_mutations (today : Int) (r : JourneyRands) :
    ∃ gp e3 rep ai,
      (create_nsclc_patient_journey today r).genomic_profile = some gp
      ∧ (create_nsclc_patient_journey today r).encounters.get? 2 = some e3
      ∧ e3.pathology_reports.get? 0 = some rep
      ∧ rep.ai_analysis = some ai
      ∧ gp.mutations.any (fun m => strContains ai.prognostic_insight m.gene) = true := by
  refine ⟨journeyGenomicProfile, _, _, pathAI, rfl, rfl, rfl, rfl, ?_⟩
  decide

/-- C4: every prognosis key factor that references a mutation (contains the
word "Mutation") names a listed mutation's gene and variant, and at least
one key factor references a listed mutation by name. -/
theorem c4_key_factors_reference_listed_mutations (today : Int) (r : JourneyRands) :
    ∃ gp, (create_nsclc_patient_journey today r).genomic_profile = some gp
      ∧ (gp.prognosis.key_factors.all fun kf =>
           !(strContains kf "Mutation")
             || gp.mutations.any fun m => strContains kf (m.gene ++ " " ++ m.variant)) = true
      ∧ (gp.prognosis.key_factors.any fun kf =>
           gp.mutations.any fun m => strContains kf m.gene) = true :=
  ⟨journeyGenomicProfile, rfl, by decide, by decide⟩

/-- C5: Encounter 2's imaging AI finding has confidence at least Encounter
1's (87 ≤ 94), both findings name the same anatomical location (`RUL`), and
every AI confidence value of the journey lies in [0, 100]. -/
theorem c5_imaging_confidence_chain (today : Int) (r : JourneyRands) :
    ∃ e1 e2 s1 s2 f1 f2,
      (create_nsclc_patient_journey today r).encounters.get? 0 = some e1
      ∧ (create_nsclc_patient_journey today r).encounters.get? 1 = some e2
      ∧ e1.imaging_studies.get? 0 = some s1
      ∧ e2.imaging_studies.get? 0 = some s2
      ∧ s1.ai_analysis.findings.get? 0 = some f1
      ∧ s2.ai_analysis.findings.get? 0 = some f2
      ∧ f1.confidence ≤ f2.confidence
      ∧ strContains f1.finding "(RUL)" = true
      ∧ strContains f2.finding "(RUL)" = true
      ∧ (allConfidences (create_nsclc_patient_journey today r)).all
          (fun c => decide (0 ≤ c) && decide (c ≤ 100)) = true := by
  refine ⟨_, _, _, _, _, _, rfl, rfl, rfl, rfl, rfl, rfl, by decide, by decide, by decide, ?_⟩
  show (allConfidences (create_nsclc_patient_journey today r)).all
      (fun c => decide (0 ≤ c) && decide (c ≤ 100)) = true
  have h : allConfidences (create_nsclc_patient_journey today r) = [87, 94, 99, 89] := rfl
  rw [h]
  decide

/-- C6: for every lab result either generator emits whose reference-range
string parses as a numeric interval, a value outside the interval is never
marked Normal (it is Critical or Abnormal), and Normal implies the value is
inside the interval. -/
theorem c6_lab_status_consistent (lab : LabResult) (lo hi : Rat)
    (hmem : (∃ today r, lab ∈ allLabs (create_nsclc_patient_journey today r))
          ∨ (∃ pid nm key age today rs p,
               create_simple_patient pid nm key age today rs = some p ∧ lab ∈ allLabs p))
    (hrange : parseRange lab.ref_range = some (lo, hi)) :
    ((lab.value < lo ∨ hi < lab.value) → (lab.status = "Critical" ∨ lab.status = "Abnormal"))
    ∧ (lab.status = "Normal" → lo ≤ lab.value ∧ lab.value ≤ hi) := by
  rcases hmem with ⟨today, r, hmem⟩ | ⟨pid, nm, key, age, today, rs, p, hp, hmem⟩
  · have h3 : allLabs (create_nsclc_patient_journey today r)
        = [⟨"Potassium", 4.1, "mEq/L", "3.5-5.2", "Normal"⟩,
           ⟨"HbA1c", 6.8, "%", "4.0-5.6", "Critical"⟩,
           ⟨"WBC", 9.5, "x10^3/uL", "4.5-11.0", "Normal"⟩] := rfl
    rw [h3] at hmem
    simp only [List.mem_cons, List.not_mem_nil, or_false] at hmem
    rcases hmem with rfl | rfl | rfl
    · dsimp only at hrange ⊢
      rw [show parseRange "3.5-5.2" = some (7/2, 26/5) from by
        simp [parseRange, parseDec, splitAtChar, digitsVal, String.data]; norm_num] at hrange
      simp only [Option.some.injEq, Prod.mk.injEq] at hrange
      obtain ⟨rfl, rfl⟩ := hrange
      norm_num
    · dsimp only at hrange ⊢
      rw [show parseRange "4.0-5.6" = some (4, 28/5) from by
        simp [parseRange, parseDec, splitAtChar, digitsVal, String.data]; norm_num] at hrange
      simp only [Option.some.injEq, Prod.mk.injEq] at hrange
      obtain ⟨rfl, rfl⟩ := hrange
      exact ⟨fun _ => Or.inl rfl, fun h => absurd h (by decide)⟩
    · dsimp only at hrange ⊢
      rw [show parseRange "4.5-11.0" = some (9/2, 11) from by
        simp [parseRange, parseDec, splitAtChar, digitsVal, String.data]; norm_num] at hrange
      simp only [Option.some.injEq, Prod.mk.injEq] at hrange
      obtain ⟨rfl, rfl⟩ := hrange
      norm_num
  · rcases hk : List.lookup key DIAGNOSES with _ | dx
    · unfold create_simple_patient at hp
      rw [hk] at hp
      exact absurd hp (by simp)
    · unfold create_simple_patient at hp
      rw [hk] at hp
      simp only [Option.some.injEq] at hp
      subst hp
      simp [allLabs] at hmem

/-- A concrete lab result (Encounter 3's Potassium) used to witness C6. -/
def sampleLab : LabResult := ⟨"Potassium", 4.1, "mEq/L", "3.5-5.2", "Normal"⟩

/-- C6 witness: the Potassium result of a concrete journey run satisfies the
status/range consistency statement. -/
theorem c6_witness :
    ((sampleLab.value < 7/2 ∨ 26/5 < sampleLab.value)
        → (sampleLab.status = "Critical" ∨ sampleLab.status = "Abnormal"))
    ∧ (sampleLab.status = "Normal" → 7/2 ≤ sampleLab.value ∧ sampleLab.value ≤ 26/5) :=
  c6_lab_status_consistent sampleLab (7/2) (26/5)
    (Or.inl ⟨20000, sampleJourneyRands, List.Mem.head _⟩)
    (by simp [sampleLab, parseRange, parseDec, splitAtChar, digitsVal, String.data]; norm_num)

/-- C7: every diagnosis attached to any encounter of either generator is a
value of the DIAGNOSES table, and every attached procedure is a value of the
PROCEDURES table. -/
theorem c7_codes_exist_in_tables (e : Encounter)
    (hmem : (∃ today r, e ∈ (create_nsclc_patient_journey today r).encounters)
          ∨ (∃ pid nm key age today rs p,
               create_simple_patient pid nm key age today rs = some p ∧ e ∈ p.encounters)) :
    (e.diagnoses.all fun d => (DIAGNOSES.map Prod.snd).any fun v => v == d) = true
    ∧ (e.procedures.all fun pr => (PROCEDURES.map Prod.snd).any fun v => v == pr) = true := by
  rcases hmem with ⟨today, r, hmem⟩ | ⟨pid, nm, key, age, today, rs, p, hp, hmem⟩
  · have h3 : (create_nsclc_patient_journey today r).encounters
        = [journeyEnc1 today ("ACLIS-" ++ hexStr (r.uuidPatient.take 8)) r.uuidImg1,
           journeyEnc2 today ("ACLIS-" ++ hexStr (r.uuidPatient.take 8)) r.uuidImg2,
           journeyEnc3 today ("ACLIS-" ++ hexStr (r.uuidPatient.take 8)) r.uuidPath] := rfl
    rw [h3] at hmem
    simp only [List.mem_cons, List.not_mem_nil, or_false] at hmem
    rcases hmem with rfl | rfl | rfl
    · exact ⟨rfl, rfl⟩
    · exact ⟨rfl, rfl⟩
    · exact ⟨rfl, rfl⟩
  · rcases hk : List.lookup key DIAGNOSES with _ | dx
    · unfold create_simple_patient at hp
      rw [hk] at hp
      exact absurd hp (by simp)
    · unfold create_simple_patient at hp
      rw [hk] at hp
      simp only [Option.some.injEq] at hp
      subst hp
      dsimp only at hmem
      simp only [List.mem_singleton] at hmem
      subst hmem
      refine ⟨?_, rfl⟩
      have hdx := lookup_mem key DIAGNOSES dx hk
      simp only [List.all_cons, List.all_nil, Bool.and_true, List.any_eq_true]
      exact ⟨dx, hdx, by simp⟩

/-- C7 witness: Encounter 1 of a concrete journey run has all its diagnosis
and procedure codes in the reference tables. -/
theorem c7_witness :
    (((create_nsclc_patient_journey 20000 sampleJourneyRands).encounters.getD 0 default).diagnoses.all
        fun d => (DIAGNOSES.map Prod.snd).any fun v => v == d) = true
    ∧ (((create_nsclc_patient_journey 20000 sampleJourneyRands).encounters.getD 0 default).procedures.all
        fun pr => (PROCEDURES.map Prod.snd).any fun v => v == pr) = true :=
  c7_codes_exist_in_tables _ (Or.inl ⟨20000, sampleJourneyRands, List.Mem.head _⟩)

/-- Every serialized date field of any patient has the `YYYY-MM-DD` shape,
since all of them are rendered by `formatDate`. -/
theorem dateFields_all_isYMD (p : Patient) : (dateFields p).all isYMD = true := by
  rw [List.all_eq_true]
  intro s hs
  simp only [dateFields, List.mem_append, List.mem_cons, List.mem_flatMap,
    List.mem_map] at hs
  rcases hs with (rfl | ⟨e, he, hs⟩) | ⟨w, hw, rfl⟩
  · exact isYMD_formatDate _
  · rcases hs with rfl | (⟨st, hst, rfl⟩ | ⟨rep, hrep, rfl⟩)
    · exact isYMD_formatDate _
    · exact isYMD_formatDate _
    · exact isYMD_formatDate _
  · exact isYMD_formatDate _

/-- C8 (amended): every serialized date field of both generators' patients
is a `YYYY-MM-DD` string, but the only timestamp field (Encounter 1's vitals
timestamp) is itself just the encounter date in `YYYY-MM-DD` form — Python
`date - timedelta(hours=1)` drops the sub-day offset and `date.isoformat()`
yields no time component — so it does NOT carry a trailing `Z`.  The bounds
on `today` confine the run date to the years where `formatDate` is a
faithful model of `strftime`. -/
theorem c8_date_serialization_amended (today : Int) (r : JourneyRands)
    (pid : Nat) (nm key : String) (age : Int) (rs : SimpleRands) (p : Patient)
    (h0 : 0 ≤ today) (h1 : today ≤ 2000000)
    (hp : create_simple_patient pid nm key age today rs = some p) :
    (dateFields (create_nsclc_patient_journey today r)).all isYMD = true
    ∧ timestampFields (create_nsclc_patient_journey today r) = [formatDate (today - 30)]
    ∧ (timestampFields (create_nsclc_patient_journey today r)).all
        (fun s => decide (s.data.getLast? ≠ some 'Z')) = true
    ∧ (dateFields p).all isYMD = true
    ∧ timestampFields p = [] := by
  refine ⟨dateFields_all_isYMD _, rfl, ?_, dateFields_all_isYMD _, ?_⟩
  · have h2 : timestampFields (create_nsclc_patient_journey today r)
        = [formatDate (today - 30)] := rfl
    rw [h2]
    simp only [List.all_cons, List.all_nil, Bool.and_true, decide_eq_true_eq]
    rw [formatDate_getLast?]
    intro hc
    exact digitChar_ne_Z _ (Option.some.inj hc)
  · rcases hk : List.lookup key DIAGNOSES with _ | dx
    · unfold create_simple_patient at hp
      rw [hk] at hp
      exact absurd hp (by simp)
    · unfold create_simple_patient at hp
      rw [hk] at hp
      simp only [Option.some.injEq] at hp
      subst hp
      rfl

/-- C8 (counterexample): at a concrete run (day number 20000, i.e. the year
2024) the single timestamp field of the serialized journey patient does not
end with `Z`, so "every timestamp field is ISO-8601 with a trailing Z" fails
as stated. -/
theorem c8_counterexample :
    (timestampFields (create_nsclc_patient_journey 20000 sampleJourneyRands)).length = 1
    ∧ (timestampFields (create_nsclc_patient_journey 20000 sampleJourneyRands)).all
        (fun s => decide (s.data.getLast? = some 'Z')) = false := by
  exact ⟨rfl, by decide⟩

/-- The simple patient of a concrete run, used to witness C8. -/
def sampleSimplePatient : Patient :=
  (create_simple_patient 2 "Jane Smith" "Type 2 Diabetes" 68 20000 sampleSimpleRands).getD default

/-- C8 witness: the amended serialization statement at a concrete run. -/
theorem c8_witness :
    (dateFields (create_nsclc_patient_journey 20000 sampleJourneyRands)).all isYMD = true
    ∧ timestampFields (create_nsclc_patient_journey 20000 sampleJourneyRands)
        = [formatDate (20000 - 30)]
    ∧ (timestampFields (create_nsclc_patient_journey 20000 sampleJourneyRands)).all
        (fun s => decide (s.data.getLast? ≠ some 'Z')) = true
    ∧ (dateFields sampleSimplePatient).all isYMD = true
    ∧ timestampFields sampleSimplePatient = [] :=
  c8_date_serialization_amended 20000 sampleJourneyRands 2 "Jane Smith" "Type 2 Diabetes" 68
    sampleSimpleRands sampleSimplePatient (by decide) (by decide) (by rfl)

/-- C9: `create_simple_patient` ignores its `patient_id` argument — with the
other arguments and the draw record fixed, any two values of it produce
identical results — and the returned patient's id is the fresh string
`ACLIS-` followed by 8 lowercase hex characters taken from the uuid draw. -/
theorem c9_patient_id_ignored (pid1 pid2 : Nat) (nm key : String) (age today : Int)
    (rs : SimpleRands) (p : Patient)
    (hux : rs.uuid.length = 32 ∧ ∀ v ∈ rs.uuid, v < 16)
    (hp : create_simple_patient pid1 nm key age today rs = some p) :
    create_simple_patient pid1 nm key age today rs
        = create_simple_patient pid2 nm key age today rs
    ∧ p.patient_id = "ACLIS-" ++ hexStr (rs.uuid.take 8)
    ∧ p.patient_id.data.take 6 = "ACLIS-".data
    ∧ (p.patient_id.data.drop 6).length = 8
    ∧ (p.patient_id.data.drop 6).all isHexChar = true := by
  obtain ⟨hlen, hvals⟩ := hux
  refine ⟨rfl, ?_⟩
  rcases hk : List.lookup key DIAGNOSES with _ | dx
  · unfold create_simple_patient at hp
    rw [hk] at hp
    exact absurd hp (by simp)
  · unfold create_simple_patient at hp
    rw [hk] at hp
    simp only [Option.some.injEq] at hp
    subst hp
    have hid : ("ACLIS-" ++ hexStr (rs.uuid.take 8)).data
        = "ACLIS-".data ++ (rs.uuid.take 8).map hexChar := by
      rw [String.data_append]; rfl
    refine ⟨rfl, ?_, ?_, ?_⟩
    · show ("ACLIS-" ++ hexStr (rs.uuid.take 8)).data.take 6 = "ACLIS-".data
      rw [hid, show (6 : Nat) = "ACLIS-".data.length from rfl, List.take_left]
    · show (("ACLIS-" ++ hexStr (rs.uuid.take 8)).data.drop 6).length = 8
      rw [hid, show (6 : Nat) = "ACLIS-".data.length from rfl, List.drop_left]
      simp [List.length_take, hlen]
    · show (("ACLIS-" ++ hexStr (rs.uuid.take 8)).data.drop 6).all isHexChar = true
      rw [hid, show (6 : Nat) = "ACLIS-".data.length from rfl, List.drop_left]
      rw [List.all_eq_true]
      intro c hc
      simp only [List.mem_map] at hc
      obtain ⟨v, hv, rfl⟩ := hc
      exact hexChar_isHexChar v (hvals v (List.take_subset 8 rs.uuid hv))

/-- C9 witness: the statement at a concrete run of `create_simple_patient`. -/
theorem c9_witness :
    create_simple_patient 2 "Jane Smith" "Type 2 Diabetes" 68 20000 sampleSimpleRands
        = create_simple_patient 7 "Jane Smith" "Type 2 Diabetes" 68 20000 sampleSimpleRands
    ∧ sampleSimplePatient.patient_id = "ACLIS-" ++ hexStr (sampleSimpleRands.uuid.take 8)
    ∧ sampleSimplePatient.patient_id.data.take 6 = "ACLIS-".data
    ∧ (sampleSimplePatient.patient_id.data.drop 6).length = 8
    ∧ (sampleSimplePatient.patient_id.data.drop 6).all isHexChar = true :=
  c9_patient_id_ignored 2 7 "Jane Smith" "Type 2 Diabetes" 68 20000 sampleSimpleRands
    sampleSimplePatient ⟨by decide, by decide⟩ (by rfl)

/-- C10: every wearable sample at day index `i` has a step count inside the
drift envelope `[2000 − 50·i, 8000 − 50·i]`; in particular steps always lie
in `[550, 8000]` and are never negative. -/
theorem c10_steps_envelope (today : Int) (r : JourneyRands)
    (hdraw : ∀ i, 2000 ≤ r.stepsDraw i ∧ r.stepsDraw i ≤ 8000)
    (i : Nat) (w : Wearable)
    (hw : ((create_nsclc_patient_journey today r).wearable_data)[i]? = some w) :
    2000 - 50 * (i : Int) ≤ w.steps ∧ w.steps ≤ 8000 - 50 * (i : Int)
    ∧ 550 ≤ w.steps ∧ w.steps ≤ 8000 := by
  have hwd : (create_nsclc_patient_journey today r).wearable_data
      = (List.range 30).map (fun (j : Nat) =>
          ({ date := today - (30 - (j : Int)), steps := r.stepsDraw j - 50 * (j : Int),
             avg_hr := r.hrDraw j, sleep_hours := r.sleepDraw j } : Wearable)) := rfl
  rw [hwd, List.getElem?_map] at hw
  by_cases hi : i < 30
  · rw [List.getElem?_range hi] at hw
    simp only [Option.map_some', Option.some.injEq] at hw
    subst hw
    obtain ⟨h1, h2⟩ := hdraw i
    dsimp only
    refine ⟨by omega, by omega, by omega, by omega⟩
  · rw [List.getElem?_eq_none (by simp [List.length_range]; omega)] at hw
    exact absurd hw (by simp)

/-- C10 witness: the day-0 sample of a concrete run satisfies the envelope. -/
theorem c10_witness :
    2000 - 50 * ((0 : Nat) : Int)
        ≤ ((create_nsclc_patient_journey 20000 sampleJourneyRands).wearable_data.getD 0
            default).steps
    ∧ ((create_nsclc_patient_journey 20000 sampleJourneyRands).wearable_data.getD 0
        default).steps ≤ 8000 - 50 * ((0 : Nat) : Int)
    ∧ 550 ≤ ((create_nsclc_patient_journey 20000 sampleJourneyRands).wearable_data.getD 0
        default).steps
    ∧ ((create_nsclc_patient_journey 20000 sampleJourneyRands).wearable_data.getD 0
        default).steps ≤ 8000 :=
  c10_steps_envelope 20000 sampleJourneyRands
    (fun _ => ⟨by norm_num [sampleJourneyRands], by norm_num [sampleJourneyRands]⟩) 0 _ (by rfl)
